import Mathlib

/-!
Shallow embedding of `src/main.py` of analogkind/commoncrawl-crawler.

The script queries the Common Crawl index, pre-filters candidate filenames,
issues HTTP range requests, extracts the first `response` WARC record, and
classifies the extracted page by its `<meta name="language">` tag.

External libraries are modelled at their call boundaries:
  * `requests.get` — a response is supplied by a `net` function from the
    request actually issued to an abstract response (status code plus, for the
    data endpoint, the WARC-record view `warcio.ArchiveIterator` yields of the
    raw gzip body; for the index endpoint, the response text);
  * `json.loads` — a `jloads` parameter; the one fixed fact used about it is
    that `json.loads` raises `JSONDecodeError` on the empty string, modelled
    as `jloads "" = none` where relevant;
  * `BeautifulSoup(html, "html.parser")` — a `soupOf` parameter turning bytes
    into the parsed sequence of elements in document order; `soup.find` is
    embedded as a first-match scan over that sequence;
  * `bcp47.languages` — a `languages` parameter listing the registry's
    (name, code) pairs;
  * `loguru.logger` — each embedded function also returns the list of log
    events it emits, in order.
Python exceptions that the script does not catch are modelled as an `Option`
result being `none` (the run aborts) together with a `completed := false`
flag on the main loop's trace.
-/

/-- Log severities used by the script (loguru levels). -/
inductive LogLevel where
  | trace
  | debug
  | info
  | warning
  | critical
  | success
  deriving DecidableEq, Repr

/-- One emitted log line: severity and message. -/
structure LogEvent where
  level : LogLevel
  msg : String
  deriving DecidableEq, Repr

/-- Python's `needle in haystack` substring test on strings. -/
def substrOf (needle haystack : String) : Bool :=
  decide (needle.toList <:+: haystack.toList)

/-- Python's `s.endswith(suffix)`. -/
def pyEndsWith (s suffix : String) : Bool :=
  decide (suffix.toList <:+ s.toList)

/-- Python's whitespace test used by `str.strip()`. -/
def isPySpace (c : Char) : Bool :=
  c == ' ' || c == '\t' || c == '\n' || c == '\r' || c == '\x0b' || c == '\x0c'

/-- Python's `s.strip()` on the character list: drop whitespace from both
ends. -/
def pyStripChars (l : List Char) : List Char :=
  ((l.dropWhile isPySpace).reverse.dropWhile isPySpace).reverse

/-- Python's `s.split(sep)` for a one-character separator: splitting the
empty string yields `[""]`, and no chunk is dropped. -/
def splitOnChar (sep : Char) : List Char → List (List Char)
  | [] => [[]]
  | c :: cs =>
    if c == sep then [] :: splitOnChar sep cs
    else
      match splitOnChar sep cs with
      | [] => [[c]]
      | chunk :: rest => (c :: chunk) :: rest

/-- `response.text.strip().split("\n")` from `fetch_index`. -/
def pyLines (text : String) : List String :=
  (splitOnChar '\n' (pyStripChars text.toList)).map (fun cs => String.mk cs)

/-- Python's `int(s)` (base 10, without underscore digit separators): strip
whitespace, optional sign, decimal digits. Returns `none` where `int`
raises `ValueError`. -/
def pyInt (s : String) : Option Int :=
  let t := pyStripChars s.toList
  let sign : Int := if t.headD ' ' == '-' then -1 else 1
  let core := if t.headD ' ' == '-' || t.headD ' ' == '+' then t.tail else t
  if core ≠ [] ∧ core.all Char.isDigit then
    some (sign *
      (core.foldl (fun n c => 10 * n + (c.toNat - '0'.toNat)) 0 : Nat))
  else none

/-- `NON_GERMAN_BCP47_CODES`: the deny list built from the bcp47 registry
(`languages` models `bcp47.languages.items()` as (name, code) pairs):
keep a code iff `"German" not in name` and `len(code) >= 5`. -/
def NON_GERMAN_BCP47_CODES (languages : List (String × String)) : List String :=
  (languages.filter
    (fun p => !substrOf "German" p.1 && decide (5 ≤ p.2.length))).map Prod.snd

/-- One element of the parsed HTML document, as BeautifulSoup exposes it:
tag name plus attributes (first occurrence wins for duplicate keys). -/
structure Element where
  tag : String
  attrs : List (String × String)
  deriving DecidableEq, Repr

/-- `element.attrs.get(key)`: first value bound to `key`, if any. -/
def Element.getAttr (e : Element) (key : String) : Option String :=
  (e.attrs.find? (fun a => a.1 == key)).map Prod.snd

/-- `soup.find` with tag name `meta` and attribute filter `name: language`:
the first element in document order whose tag is `meta` and whose `name`
attribute is `language`, if any. -/
def find_meta_language (doc : List Element) : Option Element :=
  doc.find? (fun e => e.tag == "meta" && e.getAttr "name" == some "language")

/-- `is_marked_as_german`: dispatch on the first `<meta name="language">`
element of the parsed document and on its `content` attribute; returns the
boolean verdict together with the emitted log events. -/
def is_marked_as_german (doc : List Element) : Bool × List LogEvent :=
  match find_meta_language doc with
  | some language_meta_tag =>
    match language_meta_tag.getAttr "content" with
    | some "de" => (true, [])
    | none =>
        (false,
          [⟨.warning, "HTML language meta-tag doesn't contain 'content'."⟩])
    | some other_language =>
        (false,
          [⟨.debug, s!"Page is not marked as German, but {other_language}."⟩])
  | none => (false, [⟨.warning, "No language-tag found!"⟩])

/-- The list comprehension `[json.loads(record) for record in lines]`:
parse the lines left to right; the first `JSONDecodeError` (`none`)
propagates and no later line is parsed. -/
def mapLoads {J : Type} (jloads : String → Option J) : List String → Option (List J)
  | [] => some []
  | l :: ls =>
    match jloads l with
    | none => none
    | some r => (mapLoads jloads ls).map (fun rs => r :: rs)

/-- `fetch_index`: given the index response (status code and body text),
split the stripped body on newlines and `json.loads` every line.
Result `none` models the uncaught `JSONDecodeError` aborting the run. -/
def fetch_index {J : Type} (jloads : String → Option J)
    (status : Nat) (text : String) : Option (List J) × List LogEvent :=
  if 400 ≤ status ∧ status < 600 then
    (some [], [⟨.critical, s!"Failed to fetch index: {status}"⟩])
  else
    match mapLoads jloads (pyLines text) with
    | some records =>
        (some records,
          [⟨.info, s!"Received {records.length} records from Common Crawl"⟩])
    | none => (none, [])

/-- An outbound HTTP request: URL and the `Range` header value, if one is
set. -/
structure HttpRequest where
  url : String
  range : Option String
  deriving DecidableEq, Repr

/-- One WARC record as `warcio.ArchiveIterator` yields it: its `rec_type`
and the fully decoded content `content_stream().read()` would return.
Bytes are modelled as `List Nat`. -/
structure WarcRecord where
  rec_type : String
  content : List Nat
  deriving DecidableEq, Repr

/-- The data endpoint's response to a range request: HTTP status code and
the WARC-record view of the (gzip-compressed, streamed) body. -/
structure RangeResponse where
  status : Nat
  records : List WarcRecord
  deriving DecidableEq, Repr

/-- Everything observable about one `fetch_page` call: the HTTP requests it
issued (in order), its return value, and its log events (in order). -/
structure FetchOutcome where
  requests : List HttpRequest
  result : Option (List Nat)
  logs : List LogEvent
  deriving DecidableEq, Repr

/-- The download half of `fetch_page` (source lines 94-121), reached only
after the pre-filter accepted `file_name`: build the range request, send it
(`net` models `requests.get` by mapping the issued request to the server's
response), and on a 206 reply scan the WARC records for the first one of
type `response`. -/
def download_and_extract (net : HttpRequest → RangeResponse)
    (file_name : String) (offset length : Int) : FetchOutcome :=
  let url := s!"https://data.commoncrawl.org/{file_name}"
  let req : HttpRequest :=
    { url := url, range := some s!"bytes={offset}-{offset + length - 1}" }
  let response := net req
  let dl : LogEvent := ⟨.info, s!"Download from {url}"⟩
  if 400 ≤ response.status ∧ response.status < 600 then
    { requests := [req], result := none,
      logs := [dl, ⟨.critical, s!"Failed to fetch data: {response.status}"⟩] }
  else if response.status == 206 then
    match response.records.find? (fun r => r.rec_type == "response") with
    | some warc_record =>
        { requests := [req], result := some warc_record.content,
          logs := [dl] }
    | none =>
        { requests := [req], result := none,
          logs := [dl, ⟨.info, "No valid WARC record found in the given records"⟩] }
  else
    { requests := [req], result := none,
      logs := [dl, ⟨.info, "No valid WARC record found in the given records"⟩] }

/-- `fetch_page`: pre-filter the filename (robots.txt suffix, then deny-list
substring scan; source lines 82-92), then download and extract. `denyList`
models the set `NON_GERMAN_BCP47_CODES` in its iteration order. -/
def fetch_page (denyList : List String) (net : HttpRequest → RangeResponse)
    (file_name : String) (offset length : Int) : FetchOutcome :=
  if pyEndsWith file_name "robots.txt" then
    { requests := [], result := none,
      logs := [⟨.debug, "Skipping robots.txt"⟩] }
  else
    match denyList.find? (fun bcp47_code => substrOf bcp47_code file_name) with
    | some bcp47_code =>
        { requests := [], result := none,
          logs :=
            [⟨.debug, s!"Skipping non-German site (i.e., bcp47_code={bcp47_code})"⟩] }
    | none => download_and_extract net file_name offset length

/-- One index record, as `main` reads it from a parsed JSON line
(`record["urlkey"]`, `record["filename"]`, `record["offset"]`,
`record["length"]`; offset and length are textual). -/
structure IndexRecord where
  urlkey : String
  filename : String
  offset : String
  length : String
  deriving DecidableEq, Repr

/-- Observable behaviour of `main`'s per-record loop: HTTP requests issued,
contents handed to the classifier, number of `success` reports, and whether
the loop ran to completion (`false` models an uncaught exception aborting
the batch). -/
structure RunTrace where
  requests : List HttpRequest
  classified : List (List Nat)
  successes : Nat
  completed : Bool
  deriving DecidableEq, Repr

/-- Prepend one record's observations to the trace of the remaining loop. -/
def RunTrace.prepend (reqs : List HttpRequest) (cls : List (List Nat))
    (suc : Nat) (t : RunTrace) : RunTrace :=
  { requests := reqs ++ t.requests, classified := cls ++ t.classified,
    successes := suc + t.successes, completed := t.completed }

/-- The body of `main`'s loop over the (truncated) index records:
`int(...)` both textual fields (an unparseable field raises `ValueError`
and aborts the loop), `fetch_page`, skip falsy content (`None` or empty
bytes), classify, and report a `success` on a match. `soupOf` models the
BeautifulSoup parse of the fetched bytes. -/
def process_records (denyList : List String) (soupOf : List Nat → List Element)
    (net : HttpRequest → RangeResponse) : List IndexRecord → RunTrace
  | [] => { requests := [], classified := [], successes := 0, completed := true }
  | record :: rest =>
    match pyInt record.offset, pyInt record.length with
    | some offset, some length =>
      let fo := fetch_page denyList net record.filename offset length
      let t := process_records denyList soupOf net rest
      match fo.result with
      | none => t.prepend fo.requests [] 0
      | some content =>
        if content = [] then t.prepend fo.requests [] 0
        else
          let verdict := is_marked_as_german (soupOf content)
          t.prepend fo.requests [content] (if verdict.1 then 1 else 0)
    | _, _ =>
      { requests := [], classified := [], successes := 0, completed := false }

/-- `main`: fetch the index, truncate to the first 20 records, and process
them in order. A `fetch_index` abort (uncaught parse error) aborts the run
before any record is processed. -/
def main_run {J : Type} (jloads : String → Option J) (toRecord : J → IndexRecord)
    (denyList : List String) (soupOf : List Nat → List Element)
    (net : HttpRequest → RangeResponse)
    (idxStatus : Nat) (idxText : String) : RunTrace :=
  match (fetch_index jloads idxStatus idxText).1 with
  | none => { requests := [], classified := [], successes := 0, completed := false }
  | some records =>
      process_records denyList soupOf net ((records.map toRecord).take 20)

/-! ### Helper lemmas -/

/-- When the pre-filter accepts `file_name`, `fetch_page` proceeds to the
download phase. -/
theorem fetch_page_accepted (denyList : List String)
    (net : HttpRequest → RangeResponse) (file_name : String)
    (offset length : Int)
    (hrob : pyEndsWith file_name "robots.txt" = false)
    (hdeny : ∀ c ∈ denyList, substrOf c file_name = false) :
    fetch_page denyList net file_name offset length =
      download_and_extract net file_name offset length := by
  unfold fetch_page
  rw [hrob]
  have hfind : denyList.find? (fun c => substrOf c file_name) = none :=
    List.find?_eq_none.mpr (fun c hc => by simp [hdeny c hc])
  simp [hfind]

/-- The download phase always issues exactly the one range request. -/
theorem download_and_extract_requests (net : HttpRequest → RangeResponse)
    (file_name : String) (offset length : Int) :
    (download_and_extract net file_name offset length).requests =
      [{ url := s!"https://data.commoncrawl.org/{file_name}",
         range := some s!"bytes={offset}-{offset + length - 1}" }] := by
  unfold download_and_extract
  dsimp only
  split
  · rfl
  · split
    · split <;> rfl
    · rfl

/-! ### C1 -/

/-- C1: a location record with non-negative offset and positive length that
survives the pre-filter is fetched with a `Range` header of exactly
`bytes=offset-(offset+length-1)` (inclusive end). -/
theorem fetch_page_range_header
    (denyList : List String) (net : HttpRequest → RangeResponse)
    (file_name : String) (offset length : Int)
    (_hoff : 0 ≤ offset) (_hlen : 0 < length)
    (hrob : pyEndsWith file_name "robots.txt" = false)
    (hdeny : ∀ c ∈ denyList, substrOf c file_name = false) :
    (fetch_page denyList net file_name offset length).requests =
      [{ url := s!"https://data.commoncrawl.org/{file_name}",
         range := some s!"bytes={offset}-{offset + length - 1}" }] := by
  rw [fetch_page_accepted denyList net file_name offset length hrob hdeny,
    download_and_extract_requests]

/-- C1 witness: at offset 100 and length 50 the header value is exactly
`bytes=100-149`. -/
theorem fetch_page_range_header_witness :
    (fetch_page [] (fun _ => ⟨206, []⟩) "crawl-data/x.warc.gz" 100 50).requests =
      [{ url := "https://data.commoncrawl.org/crawl-data/x.warc.gz",
         range := some "bytes=100-149" }] := by
  rw [fetch_page_range_header [] (fun _ => ⟨206, []⟩) "crawl-data/x.warc.gz" 100 50
    (by decide) (by decide) (by decide) (fun c hc => by cases hc)]
  decide

/-! ### C3 -/

/-- C3: the pre-filter rejects filenames ending in `robots.txt` regardless
of the deny list, otherwise rejects filenames containing a deny-list token
as a substring, and otherwise accepts (the download proceeds); the rules
apply in that order, first match winning. -/
theorem fetch_page_prefilter_rules
    (denyList : List String) (net : HttpRequest → RangeResponse)
    (file_name : String) (offset length : Int) :
    (pyEndsWith file_name "robots.txt" = true →
      fetch_page denyList net file_name offset length =
        { requests := [], result := none,
          logs := [⟨.debug, "Skipping robots.txt"⟩] }) ∧
    (pyEndsWith file_name "robots.txt" = false →
      (∃ c ∈ denyList, substrOf c file_name = true) →
      (fetch_page denyList net file_name offset length).result = none ∧
      (fetch_page denyList net file_name offset length).requests = []) ∧
    (pyEndsWith file_name "robots.txt" = false →
      (∀ c ∈ denyList, substrOf c file_name = false) →
      (fetch_page denyList net file_name offset length).requests =
        [{ url := s!"https://data.commoncrawl.org/{file_name}",
           range := some s!"bytes={offset}-{offset + length - 1}" }]) := by
  refine ⟨fun hrob => ?_, fun hrob hex => ?_, fun hrob hall => ?_⟩
  · unfold fetch_page
    rw [hrob]
    rfl
  · unfold fetch_page
    rw [hrob]
    cases hfind : denyList.find? (fun c => substrOf c file_name) with
    | none =>
        rcases hex with ⟨c, hc, hsub⟩
        exact absurd hsub (by simpa using List.find?_eq_none.mp hfind c hc)
    | some c => exact ⟨rfl, rfl⟩
  · rw [fetch_page_accepted denyList net file_name offset length hrob hall,
      download_and_extract_requests]

/-- C3 witness: a robots.txt filename is rejected even though a deny-list
token matches it; a filename with a deny-list token is rejected; a clean
filename is downloaded. -/
theorem fetch_page_prefilter_rules_witness :
    (fetch_page ["es-MX"] (fun _ => ⟨206, []⟩) "es-MX/robots.txt" 0 1 =
      { requests := [], result := none,
        logs := [⟨.debug, "Skipping robots.txt"⟩] }) ∧
    ((fetch_page ["es-MX"] (fun _ => ⟨206, []⟩) "a/es-MX/b.warc.gz" 0 1).requests = []) ∧
    ((fetch_page ["es-MX"] (fun _ => ⟨206, []⟩) "a/c.warc.gz" 0 1).requests =
      [{ url := "https://data.commoncrawl.org/a/c.warc.gz",
         range := some "bytes=0-0" }]) := by
  refine ⟨?_, ?_, ?_⟩
  · exact (fetch_page_prefilter_rules ["es-MX"] (fun _ => ⟨206, []⟩)
      "es-MX/robots.txt" 0 1).1 (by decide)
  · exact ((fetch_page_prefilter_rules ["es-MX"] (fun _ => ⟨206, []⟩)
      "a/es-MX/b.warc.gz" 0 1).2.1 (by decide)
      ⟨"es-MX", by decide, by decide⟩).2
  · rw [(fetch_page_prefilter_rules ["es-MX"] (fun _ => ⟨206, []⟩)
      "a/c.warc.gz" 0 1).2.2 (by decide)
      (fun c hc => by
        simp only [List.mem_singleton] at hc
        subst hc
        decide)]
    decide

/-! ### C9 -/

/-- C9: a filename the pre-filter rejects produces no HTTP request at all
and an absent result; the range request is sent exactly when both
pre-filter rules pass. -/
theorem fetch_page_no_request_when_rejected
    (denyList : List String) (net : HttpRequest → RangeResponse)
    (file_name : String) (offset length : Int) :
    ((pyEndsWith file_name "robots.txt" ||
        denyList.any (fun c => substrOf c file_name)) = true →
      (fetch_page denyList net file_name offset length).requests = [] ∧
      (fetch_page denyList net file_name offset length).result = none) ∧
    ((pyEndsWith file_name "robots.txt" ||
        denyList.any (fun c => substrOf c file_name)) = false →
      (fetch_page denyList net file_name offset length).requests =
        [{ url := s!"https://data.commoncrawl.org/{file_name}",
           range := some s!"bytes={offset}-{offset + length - 1}" }]) := by
  constructor
  · intro h
    rcases Bool.or_eq_true_iff.mp h with hrob | hany
    · have := (fetch_page_prefilter_rules denyList net file_name offset length).1 hrob
      rw [this]
      exact ⟨rfl, rfl⟩
    · cases hrob : pyEndsWith file_name "robots.txt"
      · rcases List.any_eq_true.mp hany with ⟨c, hc, hsub⟩
        have := (fetch_page_prefilter_rules denyList net file_name offset length).2.1
          hrob ⟨c, hc, hsub⟩
        exact ⟨this.2, this.1⟩
      · have := (fetch_page_prefilter_rules denyList net file_name offset length).1 hrob
        rw [this]
        exact ⟨rfl, rfl⟩
  · intro h
    rcases Bool.or_eq_false_iff.mp h with ⟨hrob, hany⟩
    exact (fetch_page_prefilter_rules denyList net file_name offset length).2.2 hrob
      (fun c hc => by simpa using List.any_eq_false.mp hany c hc)

/-- C9 witness: a deny-list rejection issues no request; a clean filename
issues exactly the range request. -/
theorem fetch_page_no_request_when_rejected_witness :
    ((fetch_page ["pt-BR"] (fun _ => ⟨206, []⟩) "x/pt-BR/y.warc.gz" 3 4).requests = [] ∧
     (fetch_page ["pt-BR"] (fun _ => ⟨206, []⟩) "x/pt-BR/y.warc.gz" 3 4).result = none) ∧
    (fetch_page ["pt-BR"] (fun _ => ⟨206, []⟩) "x/y.warc.gz" 3 4).requests =
      [{ url := "https://data.commoncrawl.org/x/y.warc.gz",
         range := some "bytes=3-6" }] := by
  constructor
  · exact (fetch_page_no_request_when_rejected ["pt-BR"] (fun _ => ⟨206, []⟩)
      "x/pt-BR/y.warc.gz" 3 4).1 (by decide)
  · rw [(fetch_page_no_request_when_rejected ["pt-BR"] (fun _ => ⟨206, []⟩)
      "x/y.warc.gz" 3 4).2 (by decide)]
    decide

/-! ### C2 -/

/-- On a 206 response the download phase returns the content of the first
WARC record of type `response`, if the record list splits around such a
first record. -/
theorem find?_first_response (pre post : List WarcRecord) (r : WarcRecord)
    (hpre : ∀ x ∈ pre, x.rec_type ≠ "response")
    (hr : r.rec_type = "response") :
    (pre ++ r :: post).find? (fun x => x.rec_type == "response") = some r := by
  rw [List.find?_append]
  have h1 : pre.find? (fun x => x.rec_type == "response") = none :=
    List.find?_eq_none.mpr (fun x hx => by simp [hpre x hx])
  have h2 : (r :: post).find? (fun x => x.rec_type == "response") = some r :=
    List.find?_cons_of_pos _ (by simp [hr])
  rw [h1, h2]
  rfl

/-- C2: on a 206 range response, `fetch_page` returns the full content of
the first WARC record whose type is `response`, ignoring records before and
after it; on a success status other than 206, or when no `response` record
exists, it returns `none` and logs at info severity. -/
theorem fetch_page_extract_first_response
    (denyList : List String) (net : HttpRequest → RangeResponse)
    (file_name : String) (offset length : Int) (resp : RangeResponse)
    (hrob : pyEndsWith file_name "robots.txt" = false)
    (hdeny : ∀ c ∈ denyList, substrOf c file_name = false)
    (hresp : net { url := s!"https://data.commoncrawl.org/{file_name}",
                   range := some s!"bytes={offset}-{offset + length - 1}" } = resp) :
    (resp.status = 206 →
      ∀ pre r post, resp.records = pre ++ r :: post →
        (∀ x ∈ pre, x.rec_type ≠ "response") →
        r.rec_type = "response" →
        (fetch_page denyList net file_name offset length).result = some r.content) ∧
    (¬(400 ≤ resp.status ∧ resp.status < 600) →
      (resp.status ≠ 206 ∨ ∀ x ∈ resp.records, x.rec_type ≠ "response") →
      (fetch_page denyList net file_name offset length).result = none ∧
      ⟨.info, "No valid WARC record found in the given records"⟩ ∈
        (fetch_page denyList net file_name offset length).logs) := by
  rw [fetch_page_accepted denyList net file_name offset length hrob hdeny]
  unfold download_and_extract
  dsimp only
  rw [hresp]
  constructor
  · intro h206 pre r post hrec hpre hr
    have hno : ¬(400 ≤ resp.status ∧ resp.status < 600) := by
      rw [h206]; omega
    rw [if_neg hno, if_pos (by simp [h206]), hrec,
      find?_first_response pre post r hpre hr]
  · intro hok hcase
    rw [if_neg hok]
    rcases hcase with h | h
    · rw [if_neg (by simpa using h)]
      exact ⟨rfl, by simp⟩
    · by_cases h206 : resp.status == 206
      · rw [if_pos h206,
          List.find?_eq_none.mpr (fun x hx => by simp [h x hx])]
        exact ⟨rfl, by simp⟩
      · rw [if_neg h206]
        exact ⟨rfl, by simp⟩

/-- C2 witness: with a 206 body holding a `request` record, then two
`response` records, the first `response` content is returned; with a 200
status on the same body, the result is `none` with an info log. -/
theorem fetch_page_extract_first_response_witness :
    ((fetch_page []
        (fun _ => ⟨206, [⟨"request", [9]⟩, ⟨"response", [1, 2]⟩, ⟨"response", [3]⟩]⟩)
        "x/y.warc.gz" 0 10).result = some [1, 2]) ∧
    ((fetch_page []
        (fun _ => ⟨200, [⟨"request", [9]⟩, ⟨"response", [1, 2]⟩, ⟨"response", [3]⟩]⟩)
        "x/y.warc.gz" 0 10).result = none ∧
      ⟨.info, "No valid WARC record found in the given records"⟩ ∈
        (fetch_page []
          (fun _ => ⟨200, [⟨"request", [9]⟩, ⟨"response", [1, 2]⟩, ⟨"response", [3]⟩]⟩)
          "x/y.warc.gz" 0 10).logs) := by
  constructor
  · exact (fetch_page_extract_first_response []
      (fun _ => ⟨206, [⟨"request", [9]⟩, ⟨"response", [1, 2]⟩, ⟨"response", [3]⟩]⟩)
      "x/y.warc.gz" 0 10
      ⟨206, [⟨"request", [9]⟩, ⟨"response", [1, 2]⟩, ⟨"response", [3]⟩]⟩
      (by decide) (fun c hc => by cases hc) rfl).1 rfl
      [⟨"request", [9]⟩] ⟨"response", [1, 2]⟩ [⟨"response", [3]⟩] rfl
      (by decide) rfl
  · exact (fetch_page_extract_first_response []
      (fun _ => ⟨200, [⟨"request", [9]⟩, ⟨"response", [1, 2]⟩, ⟨"response", [3]⟩]⟩)
      "x/y.warc.gz" 0 10
      ⟨200, [⟨"request", [9]⟩, ⟨"response", [1, 2]⟩, ⟨"response", [3]⟩]⟩
      (by decide) (fun c hc => by cases hc) rfl).2 (by decide) (Or.inl (by decide))

/-! ### C4 -/

/-- C4: the deny list contains exactly the registry codes of length at
least 5 whose language name does not mention German. -/
theorem NON_GERMAN_BCP47_CODES_spec
    (languages : List (String × String)) (code : String) :
    code ∈ NON_GERMAN_BCP47_CODES languages ↔
      ∃ name, (name, code) ∈ languages ∧
        substrOf "German" name = false ∧ 5 ≤ code.length := by
  unfold NON_GERMAN_BCP47_CODES
  constructor
  · intro h
    rcases List.mem_map.mp h with ⟨⟨name, c⟩, hmem, hc⟩
    rcases List.mem_filter.mp hmem with ⟨hlang, hpred⟩
    dsimp only at hc
    subst hc
    simp only [Bool.and_eq_true, Bool.not_eq_true', decide_eq_true_eq] at hpred
    exact ⟨name, hlang, hpred.1, hpred.2⟩
  · rintro ⟨name, hmem, hger, hlen⟩
    exact List.mem_map.mpr
      ⟨(name, code), List.mem_filter.mpr ⟨hmem, by simp [hger, hlen]⟩, rfl⟩

/-- C4 witness: a 5-character non-German code is in the deny list built
from a small registry; the German code and a short code are not. -/
theorem NON_GERMAN_BCP47_CODES_spec_witness :
    "ab-CD" ∈ NON_GERMAN_BCP47_CODES
      [("French", "ab-CD"), ("German", "de-DE"), ("Xhosa", "xh")] :=
  (NON_GERMAN_BCP47_CODES_spec
    [("French", "ab-CD"), ("German", "de-DE"), ("Xhosa", "xh")] "ab-CD").mpr
    ⟨"French", by decide, by decide, by decide⟩

/-! ### C5 -/

/-- C5: the classifier's verdict follows the four-case analysis of the
first `<meta name="language">` element: absent element, absent `content`
attribute, `content` exactly `de`, or any other `content` value. -/
theorem is_marked_as_german_cases (doc : List Element) :
    (find_meta_language doc = none →
      is_marked_as_german doc =
        (false, [⟨.warning, "No language-tag found!"⟩])) ∧
    (∀ e, find_meta_language doc = some e →
      (e.getAttr "content" = some "de" →
        is_marked_as_german doc = (true, [])) ∧
      (e.getAttr "content" = none →
        is_marked_as_german doc =
          (false,
            [⟨.warning, "HTML language meta-tag doesn't contain 'content'."⟩])) ∧
      (∀ v, e.getAttr "content" = some v → v ≠ "de" →
        is_marked_as_german doc =
          (false, [⟨.debug, s!"Page is not marked as German, but {v}."⟩]))) := by
  constructor
  · intro h
    unfold is_marked_as_german
    rw [h]
  · intro e he
    refine ⟨fun hc => ?_, fun hc => ?_, fun v hc hne => ?_⟩
    · unfold is_marked_as_german
      rw [he]
      dsimp only
      rw [hc]
      rfl
    · unfold is_marked_as_german
      rw [he]
      dsimp only
      rw [hc]
    · unfold is_marked_as_german
      rw [he]
      dsimp only
      rw [hc]
      split
      · rename_i heq
        exact absurd (by injection heq) hne
      · rename_i heq
        exact Option.noConfusion heq
      · rename_i other hother heq
        injection heq with hv
        subst hv
        rfl

/-- C5 witness: the four cases at concrete documents. -/
theorem is_marked_as_german_cases_witness :
    (is_marked_as_german [⟨"div", []⟩] =
      (false, [⟨.warning, "No language-tag found!"⟩])) ∧
    (is_marked_as_german
        [⟨"meta", [("name", "language"), ("content", "de")]⟩] = (true, [])) ∧
    (is_marked_as_german [⟨"meta", [("name", "language")]⟩] =
      (false,
        [⟨.warning, "HTML language meta-tag doesn't contain 'content'."⟩])) ∧
    (is_marked_as_german
        [⟨"meta", [("name", "language"), ("content", "en")]⟩] =
      (false, [⟨.debug, "Page is not marked as German, but en."⟩])) := by
  refine ⟨?_, ?_, ?_, ?_⟩
  · exact (is_marked_as_german_cases [⟨"div", []⟩]).1 (by decide)
  · exact ((is_marked_as_german_cases
      [⟨"meta", [("name", "language"), ("content", "de")]⟩]).2
      ⟨"meta", [("name", "language"), ("content", "de")]⟩ (by decide)).1 (by decide)
  · exact ((is_marked_as_german_cases
      [⟨"meta", [("name", "language")]⟩]).2
      ⟨"meta", [("name", "language")]⟩ (by decide)).2.1 (by decide)
  · rw [((is_marked_as_german_cases
      [⟨"meta", [("name", "language"), ("content", "en")]⟩]).2
      ⟨"meta", [("name", "language"), ("content", "en")]⟩ (by decide)).2.2
      "en" (by decide) (by decide)]
    decide

/-! ### C10 -/

/-- C10: the classifier's verdict on a document whose first
`<meta name="language">` element is `e` equals its verdict on the document
containing `e` alone: later language meta elements never affect it. -/
theorem is_marked_as_german_first_tag_only
    (pre post : List Element) (e : Element)
    (hpre : ∀ x ∈ pre,
      (x.tag == "meta" && x.getAttr "name" == some "language") = false)
    (he : (e.tag == "meta" && e.getAttr "name" == some "language") = true) :
    is_marked_as_german (pre ++ e :: post) = is_marked_as_german [e] := by
  have h3 : (e :: post).find?
      (fun x => x.tag == "meta" && x.getAttr "name" == some "language") = some e :=
    List.find?_cons_of_pos post he
  have h1 : find_meta_language (pre ++ e :: post) = some e := by
    unfold find_meta_language
    rw [List.find?_append,
      List.find?_eq_none.mpr (fun x hx => by simp [hpre x hx]), h3]
    rfl
  have h2 : find_meta_language [e] = some e := by
    unfold find_meta_language
    exact List.find?_cons_of_pos [] he
  unfold is_marked_as_german
  rw [h1, h2]

/-- C10 witness: with a first `de` tag followed by an `en` tag the verdict
equals the verdict on the `de` tag alone (a match), and swapping the later
tag's content does not change it. -/
theorem is_marked_as_german_first_tag_only_witness :
    is_marked_as_german
      [⟨"meta", [("name", "language"), ("content", "de")]⟩,
       ⟨"meta", [("name", "language"), ("content", "en")]⟩] =
      is_marked_as_german [⟨"meta", [("name", "language"), ("content", "de")]⟩] := by
  exact is_marked_as_german_first_tag_only []
    [⟨"meta", [("name", "language"), ("content", "en")]⟩]
    ⟨"meta", [("name", "language"), ("content", "de")]⟩
    (fun x hx => by cases hx) (by decide)

/-! ### C6 -/

/-- C6: a non-success index response yields an empty record list and one
critical log, with no exception; the main loop then runs no downstream
fetch or classification at all. -/
theorem fetch_index_failure_fail_soft
    {J : Type} (jloads : String → Option J) (toRecord : J → IndexRecord)
    (denyList : List String) (soupOf : List Nat → List Element)
    (net : HttpRequest → RangeResponse) (status : Nat) (text : String)
    (h4 : 400 ≤ status) (h6 : status < 600) :
    fetch_index jloads status text =
      (some [], [⟨.critical, s!"Failed to fetch index: {status}"⟩]) ∧
    main_run jloads toRecord denyList soupOf net status text =
      { requests := [], classified := [], successes := 0, completed := true } := by
  have h : fetch_index jloads status text =
      (some [], [⟨.critical, s!"Failed to fetch index: {status}"⟩]) := by
    unfold fetch_index
    rw [if_pos ⟨h4, h6⟩]
  refine ⟨h, ?_⟩
  unfold main_run
  rw [h]
  rfl

/-- C6 witness: an HTTP 500 index response yields no records, a critical
log, and an empty run trace. -/
theorem fetch_index_failure_fail_soft_witness :
    fetch_index (J := IndexRecord) (fun _ => none) 500 "anything" =
      (some [], [⟨.critical, "Failed to fetch index: 500"⟩]) ∧
    main_run (fun _ => none) id [] (fun _ => []) (fun _ => ⟨200, []⟩) 500 "anything" =
      { requests := [], classified := [], successes := 0, completed := true } := by
  have h := fetch_index_failure_fail_soft (fun _ => none) id [] (fun _ => [])
    (fun _ => ⟨200, []⟩) 500 "anything" (by decide) (by decide)
  refine ⟨h.1.trans (by decide), h.2⟩

/-! ### C7 -/

/-- If every line parses, the comprehension returns the parses in order. -/
theorem mapLoads_of_all {J : Type} (jloads : String → Option J) (g : String → J)
    (ls : List String) (h : ∀ l ∈ ls, jloads l = some (g l)) :
    mapLoads jloads ls = some (ls.map g) := by
  induction ls with
  | nil => rfl
  | cons l ls ih =>
    unfold mapLoads
    rw [h l (by simp), ih (fun x hx => h x (by simp [hx]))]
    rfl

/-- If some line fails to parse, the comprehension raises. -/
theorem mapLoads_of_exists_none {J : Type} (jloads : String → Option J)
    (ls : List String) (h : ∃ l ∈ ls, jloads l = none) :
    mapLoads jloads ls = none := by
  induction ls with
  | nil => rcases h with ⟨x, hx, _⟩; cases hx
  | cons l ls ih =>
    rcases h with ⟨x, hx, hnone⟩
    rcases List.mem_cons.mp hx with rfl | hx'
    · unfold mapLoads
      rw [hnone]
    · unfold mapLoads
      cases hjl : jloads l with
      | none => rfl
      | some r =>
        rw [ih ⟨x, hx', hnone⟩]
        rfl

/-- C7 (amended): on a success status, `fetch_index` parses every line of
the stripped, newline-split body in server order; if every line parses the
records come back one per line in order, and if any line fails to parse —
an empty line included — the JSON decode error propagates instead of
yielding no record. -/
theorem fetch_index_success_per_line
    {J : Type} (jloads : String → Option J) (g : String → J)
    (status : Nat) (text : String)
    (hok : ¬(400 ≤ status ∧ status < 600)) :
    ((∀ l ∈ pyLines text, jloads l = some (g l)) →
      (fetch_index jloads status text).1 = some ((pyLines text).map g)) ∧
    ((∃ l ∈ pyLines text, jloads l = none) →
      (fetch_index jloads status text).1 = none) := by
  constructor
  · intro h
    unfold fetch_index
    rw [if_neg hok, mapLoads_of_all jloads g (pyLines text) h]
  · intro h
    unfold fetch_index
    rw [if_neg hok, mapLoads_of_exists_none jloads (pyLines text) h]

/-- C7 witness: a two-line body parses to two records in order. -/
theorem fetch_index_success_per_line_witness :
    (fetch_index (fun s => some (s ++ "!")) 200 "a\nb").1 = some ["a!", "b!"] := by
  rw [(fetch_index_success_per_line (fun s => some (s ++ "!")) (fun s => s ++ "!")
    200 "a\nb" (by decide)).1 (fun l _ => rfl)]
  decide

/-- Models `json.loads` on the inputs used here: a JSON string literal
(double-quoted, no escapes, no interior quote) parses to the enclosed
string; any other line — the empty string in particular — raises
`JSONDecodeError`, i.e. `none`. -/
def jloadsStr (s : String) : Option String :=
  let cs := s.toList
  if 2 ≤ cs.length ∧ cs.head? = some '"' ∧ cs.getLast? = some '"' ∧
      (cs.drop 1).dropLast.all (fun c => !(c == '"'))
  then some (String.mk ((cs.drop 1).dropLast))
  else none

/-- C7 counterexample: with a success status and a body whose interior line
is empty, `fetch_index` does not return one record per non-empty line with
no error — the decode of the empty line fails and the error propagates
(result `none`), even though both non-empty lines parse fine. -/
theorem fetch_index_blank_line_error :
    fetch_index jloadsStr 200 "\"a\"\n\n\"b\"" = (none, []) ∧
    jloadsStr "\"a\"" = some "a" ∧
    jloadsStr "\"b\"" = some "b" ∧
    pyLines "\"a\"\n\n\"b\"" = ["\"a\"", "", "\"b\""] := by decide

/-! ### C8 -/

/-- C8 (amended): a record whose textual offset or length does not parse as
a base-10 integer raises an uncaught conversion error that aborts the whole
batch: nothing is fetched or classified from that record on, whatever
records follow. -/
theorem process_records_parse_error_aborts
    (denyList : List String) (soupOf : List Nat → List Element)
    (net : HttpRequest → RangeResponse) (record : IndexRecord)
    (rest : List IndexRecord)
    (h : pyInt record.offset = none ∨ pyInt record.length = none) :
    process_records denyList soupOf net (record :: rest) =
      { requests := [], classified := [], successes := 0, completed := false } := by
  unfold process_records
  rcases h with h | h
  · rw [h]
  · cases ho : pyInt record.offset with
    | none => rfl
    | some o =>
      rw [h]

/-- C8 witness: one record with non-numeric offset aborts the run. -/
theorem process_records_parse_error_aborts_witness :
    process_records [] (fun _ => []) (fun _ => ⟨206, [⟨"response", [1]⟩]⟩)
      [⟨"k1", "a.warc.gz", "12x", "10"⟩] =
      { requests := [], classified := [], successes := 0, completed := false } :=
  process_records_parse_error_aborts [] (fun _ => [])
    (fun _ => ⟨206, [⟨"response", [1]⟩]⟩)
    ⟨"k1", "a.warc.gz", "12x", "10"⟩ [] (Or.inl (by decide))

/-- C8 counterexample: with a first record whose offset is not parseable
and a well-formed second record, the run aborts with nothing fetched — the
second record is never processed — although the same second record alone
would be fetched and classified. -/
theorem process_records_parse_error_cex :
    (process_records [] (fun _ => []) (fun _ => ⟨206, [⟨"response", [1]⟩]⟩)
      [⟨"k1", "a.warc.gz", "abc", "10"⟩, ⟨"k2", "b.warc.gz", "0", "10"⟩] =
      { requests := [], classified := [], successes := 0, completed := false }) ∧
    (process_records [] (fun _ => []) (fun _ => ⟨206, [⟨"response", [1]⟩]⟩)
      [⟨"k2", "b.warc.gz", "0", "10"⟩] =
      { requests := [⟨"https://data.commoncrawl.org/b.warc.gz", some "bytes=0-9"⟩],
        classified := [[1]], successes := 0, completed := true }) := by decide
